import Mathlib

/-!
Verification of `src/lineage/utils.py` (jxshi/lineage).

The file shallowly embeds the four components of `utils.py`:

* `Parallelizer` (`__init__`, `__call__`) — optionally parallel execution of a
  function over a task list.  `multiprocessing.Pool` is modelled by `Pool.new`,
  which fails (raises `ValueError`) exactly when the requested process count is
  below 1, per CPython.  `Pool.map` preserves input order, so both the parallel
  and the sequential branch produce `tasks.map f`; the embedding additionally
  records how many pools the call created, so that resource claims can be
  stated.  Exceptions are modelled with `Except`.

* `Singleton` metaclass — a registry from classes to instances, with the
  `__call__` logic of the metaclass as a state-passing function that also
  reports whether the underlying constructor was invoked.

* `create_dir` — `os.makedirs(path, exist_ok=True)` over an explicit
  filesystem state `FS` (a set of directories and of files).  `makedirs`
  fails when permission is denied or when the path collides with an existing
  file (`exist_ok=True` only suppresses the error for an existing directory);
  the Python wrapper catches the exception and returns `False`, otherwise it
  returns `os.path.exists(path)`.

* `save_df_as_csv` — a DataFrame is a list of column names plus rows of
  optional cells (`none` = missing value / NaN); `to_csv` is modelled from the
  pandas documented output (header row of column names, one comma-separated
  data row per line, `na_rep` for missing cells; the index column and CSV
  quoting are abstracted away).  The first argument is `Option DataFrame`:
  `none` models any value that is not a `pandas.DataFrame` (the
  `isinstance` check).  Two booleans inject the expected failure modes:
  `denied` makes `os.makedirs` raise, `write_fails` makes the
  `atomic_write` block raise after the directory was ensured; because the
  write is atomic, a failed write leaves the files of the filesystem
  untouched.  The surrounding `try/except` returns `""` in every failure
  case, which is why the embedding is a total function.
-/

namespace Lineage

/-- Embeds `multiprocessing.Pool(processes)` construction: CPython raises
`ValueError` when the requested number of processes is less than 1. -/
def Pool.new (processes : Int) : Except String Int :=
  if processes < 1 then Except.error "Number of processes must be at least 1"
  else Except.ok processes

/-- State stored by `Parallelizer.__init__`: the two attributes, verbatim. -/
structure Parallelizer where
  _parallelize : Bool
  _processes : Int
deriving Repr, DecidableEq

/-- Embeds `Parallelizer.__init__(parallelize, processes)`: it only stores the
two arguments, with no validation and no clamping. -/
def Parallelizer.init (parallelize : Bool) (processes : Int) : Parallelizer :=
  { _parallelize := parallelize, _processes := processes }

/-- Outcome of one `Parallelizer.__call__`: the returned sequence plus how
many worker pools the call created (an observable resource effect). -/
structure CallOut (β : Type) where
  poolsCreated : Nat
  results : List β
deriving Repr, DecidableEq

/-- Embeds `Parallelizer.__call__(f, tasks)`.  In parallel mode a
`Pool(self._processes)` is created unconditionally (also for empty `tasks`)
and `p.map(f, tasks)` returns the results in input order; in sequential mode
`map(f, tasks)` yields the same sequence and no pool is created. -/
def Parallelizer.call (self : Parallelizer) (f : α → β) (tasks : List α) :
    Except String (CallOut β) :=
  if self._parallelize then
    match Pool.new self._processes with
    | Except.error e => Except.error e
    | Except.ok _ => Except.ok ⟨1, tasks.map f⟩
  else
    Except.ok ⟨0, tasks.map f⟩

/-- The class-to-instance registry held by the `Singleton` metaclass
(`cls._instances`).  `Cls` stands for the class objects, `Inst` for the
constructed instances. -/
structure MetaState (Cls Inst : Type) where
  _instances : List (Cls × Inst)
deriving Repr, DecidableEq

/-- Dictionary lookup `cls._instances.get(cls)`. -/
def MetaState.lookup [DecidableEq Cls] (st : MetaState Cls Inst) (cls : Cls) :
    Option Inst :=
  (st._instances.find? (fun ci => decide (ci.1 = cls))).map Prod.snd

/-- Result of one `Singleton.__call__`: the updated registry, the returned
instance, and whether the underlying constructor
(`super().__call__(*args, **kwargs)`) was invoked. -/
structure SingletonCall (Cls Inst : Type) where
  state : MetaState Cls Inst
  inst : Inst
  constructed : Bool
deriving Repr, DecidableEq

/-- Embeds `Singleton.__call__(cls, *args, **kwargs)`: if `cls` is not in
`cls._instances`, construct the instance (modelled by `construct`, applied to
the class and the arguments) and store it; in every case return the stored
instance. -/
def Singleton.call [DecidableEq Cls] (st : MetaState Cls Inst)
    (construct : Cls → Args → Inst) (cls : Cls) (args : Args) :
    SingletonCall Cls Inst :=
  match st.lookup cls with
  | some i => ⟨st, i, false⟩
  | none =>
    let i := construct cls args
    ⟨⟨(cls, i) :: st._instances⟩, i, true⟩

/-- Filesystem state: the set of existing directories and the files with
their contents.  Paths are abstract strings; the ancestor structure of
`os.makedirs` is collapsed into the single requested path. -/
structure FS where
  dirs : List String
  files : List (String × String)
deriving Repr, DecidableEq

/-- The paths of the files of `fs`. -/
def FS.filePaths (fs : FS) : List String :=
  fs.files.map Prod.fst

/-- Whether `os.path.exists(path)` holds in `fs`. -/
def os_path_exists (fs : FS) (path : String) : Bool :=
  fs.dirs.contains path || fs.filePaths.contains path

/-- Embeds `os.makedirs(path, exist_ok=True)`: raises when permission is
denied (injected by `denied`) or when `path` collides with an existing file
(`exist_ok=True` only suppresses the error for an existing directory);
succeeds without change when the directory already exists; otherwise creates
it. -/
def os_makedirs (fs : FS) (path : String) (denied : Bool) :
    Except String FS :=
  if denied then Except.error "PermissionError"
  else if fs.filePaths.contains path then Except.error "FileExistsError"
  else if fs.dirs.contains path then Except.ok fs
  else Except.ok { fs with dirs := path :: fs.dirs }

/-- Embeds `create_dir(path)`: try `os.makedirs(path, exist_ok=True)`; on any
exception print it and return `False`; otherwise return
`os.path.exists(path)`. -/
def create_dir (fs : FS) (path : String) (denied : Bool) : FS × Bool :=
  match os_makedirs fs path denied with
  | Except.error _ => (fs, false)
  | Except.ok fs2 => (fs2, os_path_exists fs2 path)

/-- Embeds `os.path.join(path, filename)` on POSIX (neither side absolute or
empty, the common case of the callers). -/
def os_path_join (path filename : String) : String :=
  path ++ "/" ++ filename

/-- A `pandas.DataFrame`: named columns plus ordered rows; a cell that is
`none` is a missing value (NaN).  `len(df)` is `rows.length`. -/
structure DataFrame where
  columns : List String
  rows : List (List (Option String))
deriving Repr, DecidableEq

/-- Models `df.to_csv(f, na_rep=...)` per the pandas documentation: a header
row with the column names, then one comma-separated data row per line, with
missing cells rendered as `na_rep`.  The optional index column and CSV
quoting are abstracted away. -/
def DataFrame.to_csv (df : DataFrame) (na_rep : String) : String :=
  String.intercalate "," df.columns ++ "\n" ++
    String.join (df.rows.map (fun row =>
      String.intercalate "," (row.map (fun c => c.getD na_rep)) ++ "\n"))

/-- Replace (or create) the file at `p` with content `c`: the effect of a
completed `atomic_write(p, overwrite=True)` block. -/
def FS.setFile (fs : FS) (p c : String) : FS :=
  { fs with files := (p, c) :: fs.files.filter (fun pc => pc.1 ≠ p) }

/-- Content of the file at `p`, when present. -/
def FS.readFile (fs : FS) (p : String) : Option String :=
  (fs.files.find? (fun pc => decide (pc.1 = p))).map Prod.snd

/-- The comment block written before the table: the provenance line with the
tool version, the UTC timestamp line, then the caller-supplied comment. -/
def header_block (version timestamp comment : String) : String :=
  "# Generated by lineage v" ++ version ++
    ", https://github.com/apriha/lineage\n" ++
  "# Generated at " ++ timestamp ++ " UTC\n" ++ comment

/-- Embeds `save_df_as_csv(df, path, filename, comment)`.  `df = none` models
a first argument that is not a `pandas.DataFrame`; `version` is
`lineage.__version__` and `timestamp` the formatted `utcnow()`, both external
inputs; `denied` injects an `os.makedirs` failure and `write_fails` an
exception inside the `atomic_write` block (after which atomicity leaves the
files untouched).  Returns the new filesystem state and the returned
string. -/
def save_df_as_csv (fs : FS) (df : Option DataFrame)
    (path filename comment version timestamp : String)
    (denied write_fails : Bool) : FS × String :=
  match df with
  | none => (fs, "")
  | some d =>
    if d.rows.length > 0 then
      let r1 := create_dir fs path denied
      if r1.2 then
        let destination := os_path_join path filename
        let s := header_block version timestamp comment
        if write_fails then (r1.1, "")
        else (r1.1.setFile destination (s ++ d.to_csv "--"), destination)
      else (r1.1, "")
    else (fs, "")

/-- Claim C1 (confirmed): for every function `f` and every finite task
sequence, the runner in either mode (given a valid worker count, so that the
parallel pool can be built) returns exactly `tasks.map f`: a sequence of the
same length whose element at index `i` is `f` of the task at index `i`. -/
theorem parallelizer_order_preservation {α β : Type} (b : Bool) (p : Int)
    (hp : 1 ≤ p) (f : α → β) (tasks : List α) :
    Except.map CallOut.results ((Parallelizer.init b p).call f tasks) =
      Except.ok (tasks.map f) ∧
    (tasks.map f).length = tasks.length ∧
    ∀ i : Nat, i < tasks.length → (tasks.map f)[i]? = (tasks[i]?).map f := by
  refine ⟨?_, List.length_map _ _, fun i hi => ?_⟩
  · cases b <;>
      simp [Parallelizer.call, Parallelizer.init, Pool.new, not_lt.mpr hp,
        Except.map]
  · simp

/-- Witness for C1 at a concrete input. -/
theorem parallelizer_order_preservation_witness :
    1 ≤ (2 : Int) ∧
    Except.map CallOut.results
        ((Parallelizer.init true 2).call (fun x : Nat => x + 1) [3, 4, 5]) =
      Except.ok [4, 5, 6] :=
  ⟨by decide, by
    have h := parallelizer_order_preservation true 2 (by decide)
      (fun x : Nat => x + 1) [3, 4, 5]
    simpa using h.1⟩

/-- Claim C2 (confirmed): for a deterministic `f` (any Lean function) and any
task sequence, parallel and sequential mode return the same result
sequence. -/
theorem parallelizer_mode_equivalence {α β : Type} (p : Int) (hp : 1 ≤ p)
    (f : α → β) (tasks : List α) :
    Except.map CallOut.results ((Parallelizer.init true p).call f tasks) =
      Except.map CallOut.results ((Parallelizer.init false p).call f tasks) := by
  simp [Parallelizer.call, Parallelizer.init, Pool.new, not_lt.mpr hp,
    Except.map]

/-- Witness for C2 at a concrete input. -/
theorem parallelizer_mode_equivalence_witness :
    1 ≤ (2 : Int) ∧
    Except.map CallOut.results
        ((Parallelizer.init true 2).call (fun x : Nat => x * x) [1, 2, 3]) =
      Except.map CallOut.results
        ((Parallelizer.init false 2).call (fun x : Nat => x * x) [1, 2, 3]) :=
  ⟨by decide, parallelizer_mode_equivalence 2 (by decide)
    (fun x : Nat => x * x) [1, 2, 3]⟩

/-- Counterexample to claim C3 as stated: on an empty task sequence in
parallel mode the call does not return with zero pools created — a
`Pool(self._processes)` is built before `p.map` looks at the tasks. -/
theorem parallelizer_empty_no_pool_cex :
    ¬ ((Parallelizer.init true 2).call (fun x : Nat => x) ([] : List Nat) =
        Except.ok ⟨0, []⟩) := by
  intro h
  simp [Parallelizer.call, Parallelizer.init, Pool.new] at h

/-- Claim C3 (corrected): on an empty task sequence the call returns an empty
result sequence in both modes; no pool is created in sequential mode, but in
parallel mode one worker pool is still created. -/
theorem parallelizer_empty_tasks {α β : Type} (b : Bool) (p : Int)
    (hp : 1 ≤ p) (f : α → β) :
    (Parallelizer.init b p).call f ([] : List α) =
      Except.ok ⟨if b then 1 else 0, ([] : List β)⟩ := by
  cases b <;>
    simp [Parallelizer.call, Parallelizer.init, Pool.new, not_lt.mpr hp]

/-- Witness for C3 (corrected form) at concrete inputs, both modes. -/
theorem parallelizer_empty_tasks_witness :
    1 ≤ (2 : Int) ∧
    (Parallelizer.init true 2).call (fun x : Nat => x) ([] : List Nat) =
      Except.ok ⟨1, []⟩ ∧
    (Parallelizer.init false 2).call (fun x : Nat => x) ([] : List Nat) =
      Except.ok ⟨0, []⟩ :=
  by
  have h1 := parallelizer_empty_tasks true 2 (by decide) (fun x : Nat => x)
  have h2 := parallelizer_empty_tasks false 2 (by decide) (fun x : Nat => x)
  refine ⟨by decide, ?_, ?_⟩
  · simpa using h1
  · simpa using h2

/-- Helper: `create_dir` never touches the files of the filesystem, only the
directories. -/
theorem create_dir_preserves_files (fs : FS) (path : String) (denied : Bool) :
    (create_dir fs path denied).1.files = fs.files := by
  unfold create_dir os_makedirs
  split_ifs <;> simp

/-- Helper: with permission denied, `os.makedirs` raises, the wrapper
catches, and `create_dir` returns the state unchanged with `False`. -/
theorem create_dir_denied (fs : FS) (path : String) :
    create_dir fs path true = (fs, false) := rfl

/-- Helper: when the path collides with an existing file, `os.makedirs`
raises `FileExistsError` and `create_dir` returns `False`. -/
theorem create_dir_collision (fs : FS) (path : String)
    (h : fs.filePaths.contains path = true) :
    create_dir fs path false = (fs, false) := by
  unfold create_dir os_makedirs
  rw [h]
  simp

/-- Helper: when the path is not an existing file, `create_dir` succeeds,
adding the directory when it is new. -/
theorem create_dir_ok (fs : FS) (path : String)
    (hfile : fs.filePaths.contains path = false) :
    create_dir fs path false =
      (if fs.dirs.contains path = true then fs
       else { fs with dirs := path :: fs.dirs }, true) := by
  unfold create_dir os_makedirs os_path_exists
  rw [hfile]
  by_cases hd : fs.dirs.contains path = true
  · rw [hd]
    have hd2 : path ∈ fs.dirs := by simpa using hd
    simp [hd2]
  · rw [Bool.not_eq_true] at hd
    rw [hd]
    simp [hd]

/-- Claim C8 (confirmed): ensuring a directory whose path does not collide
with an existing file succeeds twice in a row, the second call leaving the
filesystem unchanged; when creation is impossible (permission denied, or the
path is an existing file) the exception is caught and `False` is returned.
The embedding is a total function, so no exception escapes. -/
theorem create_dir_idempotent_nonthrowing (fs : FS) (path : String)
    (hfile : fs.filePaths.contains path = false) :
    (create_dir fs path false).2 = true ∧
    (create_dir (create_dir fs path false).1 path false).2 = true ∧
    (create_dir (create_dir fs path false).1 path false).1 =
      (create_dir fs path false).1 ∧
    (∀ fs2 : FS, (create_dir fs2 path true).2 = false) ∧
    (∀ fs2 : FS, fs2.filePaths.contains path = true →
      (create_dir fs2 path false).2 = false) := by
  have h1 := create_dir_ok fs path hfile
  by_cases hd : fs.dirs.contains path = true
  · rw [if_pos hd] at h1
    have e : (create_dir fs path false).1 = fs := by rw [h1]
    refine ⟨?_, ?_, ?_, ?_, ?_⟩
    · rw [h1]
    · rw [e, h1]
    · rw [e]
      exact e
    · intro fs2
      rw [create_dir_denied]
    · intro fs2 h2
      rw [create_dir_collision fs2 path h2]
  · rw [if_neg hd] at h1
    have hfile1 : (FS.mk (path :: fs.dirs) fs.files).filePaths.contains path
        = false := hfile
    have h2 := create_dir_ok ⟨path :: fs.dirs, fs.files⟩ path hfile1
    have hd1 : (FS.mk (path :: fs.dirs) fs.files).dirs.contains path = true := by
      simp
    rw [if_pos hd1] at h2
    have e : (create_dir fs path false).1 = ⟨path :: fs.dirs, fs.files⟩ := by
      rw [h1]
    refine ⟨?_, ?_, ?_, ?_, ?_⟩
    · rw [h1]
    · rw [e, h2]
    · rw [e, h2]
    · intro fs2
      rw [create_dir_denied]
    · intro fs2 hcol
      rw [create_dir_collision fs2 path hcol]

/-- Witness for C8 at a concrete input. -/
theorem create_dir_idempotent_nonthrowing_witness :
    (FS.filePaths ⟨[], []⟩).contains "out" = false ∧
    (create_dir ⟨[], []⟩ "out" false).2 = true ∧
    (create_dir (create_dir ⟨[], []⟩ "out" false).1 "out" false).2 = true ∧
    (create_dir (create_dir ⟨[], []⟩ "out" false).1 "out" false).1 =
      (create_dir ⟨[], []⟩ "out" false).1 ∧
    (create_dir ⟨[], [("out", "x")]⟩ "out" false).2 = false := by
  have h := create_dir_idempotent_nonthrowing ⟨[], []⟩ "out" (by decide)
  exact ⟨by decide, h.1, h.2.1, h.2.2.1,
    h.2.2.2.2 ⟨[], [("out", "x")]⟩ (by decide)⟩

/-- Helper: looking up the class just inserted at the head of the registry
returns its instance. -/
theorem MetaState.lookup_cons_self {Cls Inst : Type} [DecidableEq Cls]
    (l : List (Cls × Inst)) (cls : Cls) (i : Inst) :
    MetaState.lookup ⟨(cls, i) :: l⟩ cls = some i := by
  simp [MetaState.lookup]

/-- Helper: when the class is already registered, `Singleton.__call__`
returns the stored instance, unchanged state, constructor not invoked. -/
theorem Singleton.call_found {Cls Inst Args : Type} [DecidableEq Cls]
    (st : MetaState Cls Inst) (construct : Cls → Args → Inst)
    (cls : Cls) (args : Args) (i : Inst) (h : st.lookup cls = some i) :
    Singleton.call st construct cls args = ⟨st, i, false⟩ := by
  unfold Singleton.call
  rw [h]

/-- Helper: when the class is not yet registered, `Singleton.__call__`
invokes the constructor, stores the instance, and returns it. -/
theorem Singleton.call_missing {Cls Inst Args : Type} [DecidableEq Cls]
    (st : MetaState Cls Inst) (construct : Cls → Args → Inst)
    (cls : Cls) (args : Args) (h : st.lookup cls = none) :
    Singleton.call st construct cls args =
      ⟨⟨(cls, construct cls args) :: st._instances⟩, construct cls args,
        true⟩ := by
  unfold Singleton.call
  rw [h]

/-- Claim C9 (confirmed): with the `Singleton` metaclass, the first
instantiation of a class not yet in the registry invokes the constructor and
stores the result; every later instantiation, with any arguments, returns the
identical stored instance, does not invoke the constructor, and leaves the
registry unchanged. -/
theorem singleton_unique_instance {Cls Inst Args : Type} [DecidableEq Cls]
    (st : MetaState Cls Inst) (construct : Cls → Args → Inst)
    (cls : Cls) (args1 args2 : Args) :
    (st.lookup cls = none →
      (Singleton.call st construct cls args1).constructed = true ∧
      (Singleton.call st construct cls args1).inst = construct cls args1 ∧
      (Singleton.call st construct cls args1).state.lookup cls =
        some (construct cls args1)) ∧
    (Singleton.call (Singleton.call st construct cls args1).state construct
        cls args2).inst = (Singleton.call st construct cls args1).inst ∧
    (Singleton.call (Singleton.call st construct cls args1).state construct
        cls args2).constructed = false ∧
    (Singleton.call (Singleton.call st construct cls args1).state construct
        cls args2).state = (Singleton.call st construct cls args1).state := by
  cases h : st.lookup cls with
  | some i =>
    have e1 := Singleton.call_found st construct cls args1 i h
    have e2 := Singleton.call_found st construct cls args2 i h
    have estate : (Singleton.call st construct cls args1).state = st := by
      rw [e1]
    refine ⟨?_, ?_, ?_, ?_⟩
    · intro hn
      exact Option.noConfusion hn
    · rw [estate, e2, e1]
    · rw [estate, e2]
    · rw [estate, e2]
  | none =>
    have e1 := Singleton.call_missing st construct cls args1 h
    have hLook := MetaState.lookup_cons_self st._instances cls
      (construct cls args1)
    have e2 := Singleton.call_found
      ⟨(cls, construct cls args1) :: st._instances⟩ construct cls args2
      (construct cls args1) hLook
    have estate : (Singleton.call st construct cls args1).state =
        ⟨(cls, construct cls args1) :: st._instances⟩ := by
      rw [e1]
    refine ⟨fun _ => ⟨?_, ?_, ?_⟩, ?_, ?_, ?_⟩
    · rw [e1]
    · rw [e1]
    · rw [estate]
      exact hLook
    · rw [estate, e2, e1]
    · rw [estate, e2]
    · rw [estate, e2]

/-- Witness for C9 at a concrete input. -/
theorem singleton_unique_instance_witness :
    MetaState.lookup (⟨[]⟩ : MetaState Nat Nat) 1 = none ∧
    (Singleton.call (Singleton.call (⟨[]⟩ : MetaState Nat Nat)
        (fun c a => c + a) 1 10).state (fun c a => c + a) 1 20).inst =
      (Singleton.call (⟨[]⟩ : MetaState Nat Nat)
        (fun c a => c + a) 1 10).inst ∧
    (Singleton.call (Singleton.call (⟨[]⟩ : MetaState Nat Nat)
        (fun c a => c + a) 1 10).state (fun c a => c + a) 1 20).constructed =
      false := by
  have h := singleton_unique_instance (⟨[]⟩ : MetaState Nat Nat)
    (fun c a => c + a) 1 10 20
  exact ⟨rfl, h.2.1, h.2.2.1⟩

/-- Counterexample to claim C7 as stated: `__init__` stores a worker count of
0 unclamped, and the subsequent parallel run fails with the `ValueError`
raised by `Pool`. -/
theorem parallelizer_no_clamp_cex :
    ¬ (1 ≤ (Parallelizer.init true 0)._processes) ∧
    (Parallelizer.init true 0).call (fun x : Nat => x) [0] =
      Except.error "Number of processes must be at least 1" := by
  exact ⟨by decide, rfl⟩

/-- Claim C7 (corrected): construction never raises — `__init__` only stores
its two arguments, verbatim and unvalidated — but an invalid worker count is
not clamped: a subsequent parallel run with a stored count below 1 raises
`ValueError` from the pool. -/
theorem parallelizer_init_no_validation {α β : Type} (b : Bool) (p : Int)
    (f : α → β) (tasks : List α) :
    (Parallelizer.init b p)._parallelize = b ∧
    (Parallelizer.init b p)._processes = p ∧
    (p < 1 → (Parallelizer.init true p).call f tasks =
      Except.error "Number of processes must be at least 1") := by
  refine ⟨rfl, rfl, fun hp => ?_⟩
  simp [Parallelizer.call, Parallelizer.init, Pool.new, hp]

/-- Witness for C7 (corrected form) at a concrete input. -/
theorem parallelizer_init_no_validation_witness :
    (0 : Int) < 1 ∧
    (Parallelizer.init true 0).call (fun x : Nat => x) [5] =
      Except.error "Number of processes must be at least 1" :=
  ⟨by decide,
    (parallelizer_init_no_validation true 0 (fun x : Nat => x) [5]).2.2
      (by decide)⟩

/-- Helper: reading back the file just written. -/
theorem FS.readFile_setFile (fs : FS) (p c : String) :
    (fs.setFile p c).readFile p = some c := by
  simp [FS.setFile, FS.readFile]

/-- Helper: a first argument that is not a DataFrame takes the `else`
branch. -/
theorem save_none_branch (fs : FS)
    (path filename comment version timestamp : String)
    (denied write_fails : Bool) :
    save_df_as_csv fs none path filename comment version timestamp denied
      write_fails = (fs, "") := rfl

/-- Helper: a zero-row table takes the `else` branch. -/
theorem save_empty_rows (fs : FS) (d : DataFrame)
    (path filename comment version timestamp : String)
    (denied write_fails : Bool) (h : d.rows.length = 0) :
    save_df_as_csv fs (some d) path filename comment version timestamp denied
      write_fails = (fs, "") := by
  simp [save_df_as_csv, h]

/-- Helper: when `create_dir` reports failure the write is aborted. -/
theorem save_create_dir_failed (fs : FS) (d : DataFrame)
    (path filename comment version timestamp : String)
    (denied write_fails : Bool) (hr : d.rows.length > 0)
    (hc : (create_dir fs path denied).2 = false) :
    save_df_as_csv fs (some d) path filename comment version timestamp denied
      write_fails = ((create_dir fs path denied).1, "") := by
  unfold save_df_as_csv
  simp [hr, hc]

/-- Helper: an exception inside the `atomic_write` block is caught; the
files are untouched by atomicity. -/
theorem save_write_failed (fs : FS) (d : DataFrame)
    (path filename comment version timestamp : String) (denied : Bool)
    (hr : d.rows.length > 0) (hc : (create_dir fs path denied).2 = true) :
    save_df_as_csv fs (some d) path filename comment version timestamp denied
      true = ((create_dir fs path denied).1, "") := by
  unfold save_df_as_csv
  simp [hr, hc]

/-- Helper: the fully successful write path. -/
theorem save_success (fs : FS) (d : DataFrame)
    (path filename comment version timestamp : String) (denied : Bool)
    (hr : d.rows.length > 0) (hc : (create_dir fs path denied).2 = true) :
    save_df_as_csv fs (some d) path filename comment version timestamp denied
      false =
      ((create_dir fs path denied).1.setFile (os_path_join path filename)
        (header_block version timestamp comment ++ d.to_csv "--"),
       os_path_join path filename) := by
  unfold save_df_as_csv
  simp [hr, hc]

/-- Claim C4 (confirmed): `save_df_as_csv` reports through the return
channel only — the embedding is a total function because the `try/except`
catches the expected failure modes.  Branch by branch: a non-DataFrame
argument and a zero-row table are no-ops returning `(fs, "")`; a failed
directory creation aborts with `""` and no file written; a failed atomic
write (I/O or serialization error inside the `atomic_write` block) returns
`""` with the files untouched; the fully successful path returns the joined
destination path; and no other return value is possible. -/
theorem save_df_as_csv_return_channel (fs : FS) (df : Option DataFrame)
    (path filename comment version timestamp : String)
    (denied write_fails : Bool) :
    ((save_df_as_csv fs df path filename comment version timestamp denied
        write_fails).2 = os_path_join path filename ∨
      (save_df_as_csv fs df path filename comment version timestamp denied
        write_fails).2 = "") ∧
    (df = none →
      save_df_as_csv fs df path filename comment version timestamp denied
        write_fails = (fs, "")) ∧
    (∀ d : DataFrame, df = some d → d.rows.length = 0 →
      save_df_as_csv fs df path filename comment version timestamp denied
        write_fails = (fs, "")) ∧
    ((create_dir fs path denied).2 = false →
      (save_df_as_csv fs df path filename comment version timestamp denied
        write_fails).2 = "" ∧
      (save_df_as_csv fs df path filename comment version timestamp denied
        write_fails).1.files = fs.files) ∧
    (∀ d : DataFrame, df = some d → d.rows.length > 0 →
      (create_dir fs path denied).2 = true → write_fails = true →
      (save_df_as_csv fs df path filename comment version timestamp denied
        write_fails).2 = "" ∧
      (save_df_as_csv fs df path filename comment version timestamp denied
        write_fails).1.files = fs.files) ∧
    (∀ d : DataFrame, df = some d → d.rows.length > 0 →
      (create_dir fs path denied).2 = true → write_fails = false →
      (save_df_as_csv fs df path filename comment version timestamp denied
        write_fails).2 = os_path_join path filename) := by
  cases df with
  | none =>
    refine ⟨Or.inr rfl, fun _ => rfl, fun d hd => ?_, fun _ => ⟨rfl, rfl⟩,
      fun d hd => ?_, fun d hd => ?_⟩
    · cases hd
    · cases hd
    · cases hd
  | some d =>
    by_cases hr : d.rows.length > 0
    · by_cases hc : (create_dir fs path denied).2 = true
      · cases hw : write_fails with
        | true =>
          have e := save_write_failed fs d path filename comment version
            timestamp denied hr hc
          refine ⟨Or.inr ?_, fun hn => ?_, fun d2 hd2 h0 => ?_,
            fun hcf => ?_, fun d2 hd2 _ _ _ => ⟨?_, ?_⟩,
            fun d2 hd2 _ _ hwf => ?_⟩
          · rw [e]
          · cases hn
          · cases hd2
            omega
          · rw [hc] at hcf
            cases hcf
          · rw [e]
          · rw [e]
            exact create_dir_preserves_files fs path denied
          · cases hwf
        | false =>
          have e := save_success fs d path filename comment version
            timestamp denied hr hc
          refine ⟨Or.inl ?_, fun hn => ?_, fun d2 hd2 h0 => ?_,
            fun hcf => ?_, fun d2 hd2 _ _ hwt => ?_,
            fun d2 hd2 _ _ _ => ?_⟩
          · rw [e]
          · cases hn
          · cases hd2
            omega
          · rw [hc] at hcf
            cases hcf
          · cases hwt
          · rw [e]
      · rw [Bool.not_eq_true] at hc
        have e := save_create_dir_failed fs d path filename comment version
          timestamp denied write_fails hr hc
        refine ⟨Or.inr ?_, fun hn => ?_, fun d2 hd2 h0 => ?_,
          fun _ => ⟨?_, ?_⟩, fun d2 hd2 _ hct _ => ?_,
          fun d2 hd2 _ hct _ => ?_⟩
        · rw [e]
        · cases hn
        · cases hd2
          omega
        · rw [e]
        · rw [e]
          exact create_dir_preserves_files fs path denied
        · rw [hc] at hct
          cases hct
        · rw [hc] at hct
          cases hct
    · have hr0 : d.rows.length = 0 := by omega
      have e := save_empty_rows fs d path filename comment version timestamp
        denied write_fails hr0
      refine ⟨Or.inr ?_, fun hn => ?_, fun d2 hd2 _ => ?_,
        fun _ => ⟨?_, ?_⟩, fun d2 hd2 hr2 _ _ => ?_,
        fun d2 hd2 hr2 _ _ => ?_⟩
      · rw [e]
      · cases hn
      · exact e
      · rw [e]
      · rw [e]
      · cases hd2
        omega
      · cases hd2
        omega

/-- Witness for C4 at concrete inputs: a denied directory creation aborts
with `""` and untouched files, a failed atomic write returns `""`, and the
fully successful path returns the joined destination. -/
theorem save_df_as_csv_return_channel_witness :
    (create_dir ⟨[], []⟩ "dir" true).2 = false ∧
    (save_df_as_csv ⟨[], []⟩ (some ⟨["a"], [[none]]⟩) "dir" "f.csv" "" "1.0"
      "ts" true false).2 = "" ∧
    (save_df_as_csv ⟨[], []⟩ (some ⟨["a"], [[none]]⟩) "dir" "f.csv" "" "1.0"
      "ts" true false).1.files = (⟨[], []⟩ : FS).files ∧
    (create_dir ⟨[], []⟩ "dir" false).2 = true ∧
    (save_df_as_csv ⟨[], []⟩ (some ⟨["a"], [[none]]⟩) "dir" "f.csv" "" "1.0"
      "ts" false true).2 = "" ∧
    (save_df_as_csv ⟨[], []⟩ (some ⟨["a"], [[none]]⟩) "dir" "f.csv" "" "1.0"
      "ts" false false).2 = os_path_join "dir" "f.csv" := by
  have h1 := save_df_as_csv_return_channel ⟨[], []⟩ (some ⟨["a"], [[none]]⟩)
    "dir" "f.csv" "" "1.0" "ts" true false
  have h2 := save_df_as_csv_return_channel ⟨[], []⟩ (some ⟨["a"], [[none]]⟩)
    "dir" "f.csv" "" "1.0" "ts" false false
  have h3 := save_df_as_csv_return_channel ⟨[], []⟩ (some ⟨["a"], [[none]]⟩)
    "dir" "f.csv" "" "1.0" "ts" false true
  have hcf : (create_dir (⟨[], []⟩ : FS) "dir" true).2 = false := by decide
  have hct : (create_dir (⟨[], []⟩ : FS) "dir" false).2 = true := by decide
  exact ⟨hcf, (h1.2.2.2.1 hcf).1, (h1.2.2.2.1 hcf).2, hct,
    (h3.2.2.2.2.1 ⟨["a"], [[none]]⟩ rfl (by decide) hct rfl).1,
    h2.2.2.2.2.2 ⟨["a"], [[none]]⟩ rfl (by decide) hct rfl⟩

/-- Claim C5 (confirmed): a successful write of a non-empty table stores at
the joined destination exactly the comment block (provenance line with the
tool version, UTC timestamp line, caller-supplied comment) followed by the
delimited table: a header row of the column names, one data row per line,
missing cells rendered as the two-character sentinel. -/
theorem save_df_as_csv_output_format (fs : FS) (d : DataFrame)
    (path filename comment version timestamp : String)
    (hrows : d.rows.length > 0)
    (hok : (create_dir fs path false).2 = true) :
    (save_df_as_csv fs (some d) path filename comment version timestamp false
        false).2 = os_path_join path filename ∧
    (save_df_as_csv fs (some d) path filename comment version timestamp false
        false).1.readFile (os_path_join path filename) =
      some (header_block version timestamp comment ++ d.to_csv "--") ∧
    header_block version timestamp comment =
      "# Generated by lineage v" ++ version ++
        ", https://github.com/apriha/lineage\n" ++
      "# Generated at " ++ timestamp ++ " UTC\n" ++ comment ∧
    d.to_csv "--" =
      String.intercalate "," d.columns ++ "\n" ++
        String.join (d.rows.map (fun row =>
          String.intercalate "," (row.map (fun c => c.getD "--")) ++ "\n")) := by
  have e := save_success fs d path filename comment version timestamp false
    hrows hok
  refine ⟨?_, ?_, rfl, rfl⟩
  · rw [e]
  · rw [e]
    exact FS.readFile_setFile _ _ _

/-- Witness for C5 at a concrete input, with the file content spelled out. -/
theorem save_df_as_csv_output_format_witness :
    (1 : Nat) ≤ 1 ∧
    (create_dir ⟨[], []⟩ "dir" false).2 = true ∧
    (save_df_as_csv ⟨[], []⟩ (some ⟨["a", "b"], [[some "1", none]]⟩) "dir"
        "f.csv" "# c\n" "1.0" "2020-01-01 00:00:00" false
        false).1.readFile (os_path_join "dir" "f.csv") =
      some ("# Generated by lineage v1.0, https://github.com/apriha/lineage\n# Generated at 2020-01-01 00:00:00 UTC\n# c\na,b\n1,--\n") := by
  have h := save_df_as_csv_output_format ⟨[], []⟩
    ⟨["a", "b"], [[some "1", none]]⟩ "dir" "f.csv" "# c\n" "1.0"
    "2020-01-01 00:00:00" (by decide) (by decide)
  refine ⟨by decide, by decide, ?_⟩
  rw [h.2.1]
  rfl

/-- Claim C6 (confirmed): on a zero-row table `save_df_as_csv` is a no-op:
it returns `""` and the filesystem is completely unchanged (no directory is
created and no file is created or modified). -/
theorem save_df_as_csv_empty_table_noop (fs : FS) (d : DataFrame)
    (path filename comment version timestamp : String)
    (denied write_fails : Bool) (h : d.rows.length = 0) :
    save_df_as_csv fs (some d) path filename comment version timestamp denied
      write_fails = (fs, "") :=
  save_empty_rows fs d path filename comment version timestamp denied
    write_fails h

/-- Witness for C6 at a concrete input. -/
theorem save_df_as_csv_empty_table_noop_witness :
    (DataFrame.rows ⟨["a"], []⟩).length = 0 ∧
    save_df_as_csv ⟨["d0"], [("p", "c")]⟩ (some ⟨["a"], []⟩) "dir" "f.csv" ""
      "1.0" "ts" false false = (⟨["d0"], [("p", "c")]⟩, "") :=
  ⟨rfl, save_df_as_csv_empty_table_noop ⟨["d0"], [("p", "c")]⟩ ⟨["a"], []⟩
    "dir" "f.csv" "" "1.0" "ts" false false rfl⟩

/-- Claim C10 (confirmed): a first argument that is not a DataFrame takes
the same no-op path as a zero-row table: `""` is returned, the filesystem is
unchanged, and nothing is raised (the embedding is total). -/
theorem save_df_as_csv_non_dataframe_noop (fs : FS)
    (path filename comment version timestamp : String)
    (denied write_fails : Bool) :
    save_df_as_csv fs none path filename comment version timestamp denied
      write_fails = (fs, "") := rfl

end Lineage
